import Mathlib

/-!
Shallow embedding of the exercise-calorie calculator (`Final.py` and the
near-duplicate variant `Main.py`).  Real-number arithmetic of the source is
modelled over `ℚ`; Python's `round` (banker's rounding, ties to even) is
modelled by `pyRound`, Python's float `//` by `Int.floor` and `%` by `pymod`.
Interactive sub-prompts are modelled as functions over the list of lines the
user types.
-/

namespace ExerciseCalc

/-- Constant `KILOMETERS_PER_MILE` from the source. -/
def KILOMETERS_PER_MILE : ℚ := 1.609344

/-- Constant `KILOGRAMS_PER_POUND` from the source. -/
def KILOGRAMS_PER_POUND : ℚ := 0.45359237

/-- Constant `ACRES_PER_SQUARE_MILE` from the source. -/
def ACRES_PER_SQUARE_MILE : ℚ := 640

/-- Constant `CALORIES_PER_SQUARE` from the source. -/
def CALORIES_PER_SQUARE : ℚ := 100

/-- Constant `MINUTES_PER_HOUR` from the source. -/
def MINUTES_PER_HOUR : ℚ := 60

/-- `constrain(lower_limit, number, upper_limit)` from the source:
`min(max(lower_limit, number), upper_limit)`. -/
def constrain (lower_limit number upper_limit : ℚ) : ℚ :=
  min (max lower_limit number) upper_limit

/-- Python's built-in `round(x)` on a rational: nearest integer, ties to
even (banker's rounding). -/
def pyRound (q : ℚ) : ℤ :=
  if q - (Rat.floor q : ℚ) < 1 / 2 then Rat.floor q
  else if 1 / 2 < q - (Rat.floor q : ℚ) then Rat.floor q + 1
  else if Rat.floor q % 2 = 0 then Rat.floor q else Rat.floor q + 1

/-- Python's float `%` operator (`x % y = x - y * (x // y)`, floor
division). -/
def pymod (x y : ℚ) : ℚ := x - y * (Rat.floor (x / y) : ℚ)

theorem ratFloor_eq_floor (q : ℚ) : Rat.floor q = ⌊q⌋ := rfl

theorem pyRound_cases (q : ℚ) : pyRound q = ⌊q⌋ ∨ pyRound q = ⌊q⌋ + 1 := by
  unfold pyRound
  rw [ratFloor_eq_floor]
  split
  · exact Or.inl rfl
  split
  · exact Or.inr rfl
  split
  · exact Or.inl rfl
  · exact Or.inr rfl

theorem pyRound_dist_le_half (q : ℚ) : |q - (pyRound q : ℚ)| ≤ 1 / 2 := by
  have h0 : (0 : ℚ) ≤ q - (⌊q⌋ : ℚ) := by
    have := Int.floor_le q
    linarith
  have h1 : q - (⌊q⌋ : ℚ) < 1 := by
    have := Int.lt_floor_add_one q
    push_cast at this ⊢
    linarith
  unfold pyRound
  rw [ratFloor_eq_floor]
  split
  · rw [abs_of_nonneg h0]
    next h => linarith
  next h =>
    push_neg at h
    split
    · next h2 =>
      rw [abs_of_nonpos (by push_cast; linarith)]
      push_cast
      linarith
    next h2 =>
      push_neg at h2
      have heq : q - (⌊q⌋ : ℚ) = 1 / 2 := le_antisymm h2 h
      split
      · rw [abs_of_nonneg h0, heq]
      · rw [abs_of_nonpos (by push_cast; linarith)]
        push_cast
        linarith

/-- `pyRound q` is a nearest integer to `q`. -/
theorem pyRound_nearest (q : ℚ) (z : ℤ) :
    |q - (pyRound q : ℚ)| ≤ |q - (z : ℚ)| := by
  rcases eq_or_ne z (pyRound q) with h | h
  · rw [h]
  · have hz : (1 : ℚ) ≤ |(z : ℚ) - (pyRound q : ℚ)| := by
      rw [← Int.cast_sub, ← Int.cast_abs]
      exact_mod_cast Int.one_le_abs (sub_ne_zero.mpr h)
    have hhalf := pyRound_dist_le_half q
    have htri : |(z : ℚ) - (pyRound q : ℚ)| ≤
        |q - (z : ℚ)| + |q - (pyRound q : ℚ)| := by
      calc |(z : ℚ) - (pyRound q : ℚ)|
          = |(q - (pyRound q : ℚ)) - (q - (z : ℚ))| := by ring_nf
        _ ≤ |q - (pyRound q : ℚ)| + |q - (z : ℚ)| := abs_sub _ _
        _ = |q - (z : ℚ)| + |q - (pyRound q : ℚ)| := by ring
    linarith

theorem pyRound_nonneg (q : ℚ) (h : 0 ≤ q) : 0 ≤ pyRound q := by
  rcases pyRound_cases q with h1 | h1 <;> rw [h1] <;>
    have := Int.floor_nonneg.mpr h <;> omega

/-- Output of `calc_biking` (Final.py lines 166-184, Main.py lines 73-90):
the three statistics passed to `print_stat` and the returned calorie
count. -/
structure BikingOutput where
  met_stat : ℚ
  area_square_mi_stat : ℚ
  area_acres_stat : ℚ
  calories : ℚ

/-- `calc_biking(weight_kg, distance_mi, duration_hours)` from the source. -/
def calc_biking (weight_kg distance_mi duration_hours : ℚ) : BikingOutput :=
  let speed_mph := distance_mi / duration_hours
  let met := constrain 4 (speed_mph - 5) 16
  let side_length_mi := distance_mi / 4
  let area_square_mi := side_length_mi ^ 2
  let area_acres := area_square_mi * ACRES_PER_SQUARE_MILE
  { met_stat := met
    area_square_mi_stat := area_square_mi
    area_acres_stat := area_acres
    calories := duration_hours * met * weight_kg }

/-- The cardio-respiratory fitness factor computed inside `calc_running`
(Final.py lines 194-199, Main.py lines 98-102), as a function of the
sub-prompted age and resting heart rate. -/
def car_resp_fitness_factor (age_years resting_heart_bpm : ℚ) : ℚ :=
  let max_heart_bpm := 208 - 0.7 * age_years
  let vo2_max := 15.3 * max_heart_bpm / resting_heart_bpm
  constrain 1 (1.285 - 0.005 * vo2_max) 1.07

/-- `calc_running` of Final.py (lines 187-208).  The sub-prompted age,
resting heart rate and treadmill answer are modelled as validated
parameters. -/
def calc_running (weight_kg distance_km age_years resting_heart_bpm : ℚ)
    (on_a_treadmill : Bool) : ℚ :=
  let air_resistance_factor : ℚ := if ¬on_a_treadmill then 0.84 else 0
  (0.95 * weight_kg + air_resistance_factor) * distance_km *
    car_resp_fitness_factor age_years resting_heart_bpm

/-- `calc_running` of the Main.py variant (lines 93-107): no treadmill
question, the air-resistance term is always `0.84`. -/
def calc_running_main (weight_kg distance_km age_years resting_heart_bpm : ℚ) : ℚ :=
  (0.95 * weight_kg + 0.84) * distance_km *
    car_resp_fitness_factor age_years resting_heart_bpm

/-- Python's `str.strip()`, modelled on the character list: whitespace is
dropped from both ends. -/
def pyStrip (s : String) : String :=
  ⟨(((s.data.dropWhile Char.isWhitespace).reverse).dropWhile Char.isWhitespace).reverse⟩

/-- Python's `str.lower()`, modelled on the character list (ASCII model,
which covers every option string of the program). -/
def pyLower (s : String) : String := ⟨s.data.map Char.toLower⟩

/-- `get_yes_or_no(prompt, default)` (Final.py lines 124-158): value
returned by the read loop on a finite stream of input lines (`none` when
every line is rejected and the loop keeps re-prompting). -/
def get_yes_or_no (default : Option Bool) : List String → Option Bool
  | [] => none
  | input :: rest =>
    let u := pyLower (pyStrip input)
    if u = "yes" ∨ u = "y" then some true
    else if u = "no" ∨ u = "n" then some false
    else if u = "" ∧ default.isSome then default
    else get_yes_or_no default rest

/-- `SWIMMING_STYLES` (Final.py lines 32-43, Main.py lines 26-30). -/
def SWIMMING_STYLES : List String :=
  ["intense backstroke", "backstroke", "intense breaststroke", "breaststroke",
   "butterfly", "intense crawl", "crawl", "sidestroke",
   "high effort treading water", "treading water"]

/-- `SWIMMING_STYLE_METS` (Final.py line 45, Main.py line 31). -/
def SWIMMING_STYLE_METS : List ℚ :=
  [9.5, 4.8, 10.3, 5.3, 13.8, 10.0, 8.3, 7.0, 9.8, 3.5]

/-- `get_index_of_one_of(prompt, options)` (Final.py lines 93-121): index
returned by the read loop on a finite stream of input lines.  The special
`"options"` query only prints the option list and re-prompts. -/
def get_index_of_one_of (options : List String) : List String → Option ℕ
  | [] => none
  | input :: rest =>
    let u := pyLower (pyStrip input)
    if u = "options" then get_index_of_one_of options rest
    else
      match options.findIdx? (fun o => o == u) with
      | some i => some i
      | none => get_index_of_one_of options rest

/-- Body of `calc_swimming` once the style index has been read:
`duration_hours * style_met * weight_kg` with
`style_met = SWIMMING_STYLE_METS[style_index]`. -/
def calc_swimming_core (weight_kg duration_hours : ℚ) (style_index : ℕ) : ℚ :=
  duration_hours * SWIMMING_STYLE_METS.getD style_index 0 * weight_kg

/-- `calc_swimming(weight_kg, duration_hours)` (Final.py lines 211-215),
with the sub-prompted style selection modelled over the list of lines typed
at the style prompt. -/
def calc_swimming (weight_kg duration_hours : ℚ) (style_inputs : List String) :
    Option ℚ :=
  (get_index_of_one_of SWIMMING_STYLES style_inputs).map
    (calc_swimming_core weight_kg duration_hours)

/-- The fitness factor always lies in the interval `[1, 1.07]`. -/
theorem car_resp_fitness_factor_range (age_years resting_heart_bpm : ℚ) :
    1 ≤ car_resp_fitness_factor age_years resting_heart_bpm ∧
      car_resp_fitness_factor age_years resting_heart_bpm ≤ 1.07 :=
  ⟨le_min (le_max_left _ _) (by norm_num), min_le_right _ _⟩

/-- C1: for every weight `w > 0` (kg), distance `d > 0` (mi) and duration
`t > 0` (hr), `calc_biking` returns `t * constrain 4 (d / t - 5) 16 * w`
calories — a value the printed traced-square statistics do not enter — and
at weight 70, distance 20, duration 1 the MET statistic is 15 and the
returned value is exactly 1050. -/
theorem C1_biking_calories (w d t : ℚ) (hw : 0 < w) (hd : 0 < d) (ht : 0 < t) :
    (calc_biking w d t).calories = t * constrain 4 (d / t - 5) 16 * w ∧
    (calc_biking 70 20 1).met_stat = 15 ∧
    (calc_biking 70 20 1).calories = 1050 := by
  refine ⟨rfl, ?_, ?_⟩ <;> norm_num [calc_biking, constrain]

/-- Witness for C1 at weight 70 kg, distance 20 mi, duration 1 hr. -/
theorem C1_biking_calories_witness : (calc_biking 70 20 1).calories = 1050 :=
  (C1_biking_calories 70 20 1 (by norm_num) (by norm_num) (by norm_num)).2.2

/-- C2: for every weight `> 0` (kg), distance `> 0` (km), sub-prompted age
`> 0` and resting heart rate `> 0`, the running calculator returns
`(0.95 * weight + airResistance) * distance * fitnessFactor`, where
`airResistance` is `0.84` on a "no" treadmill answer, `0` on a "yes", the
configured default on empty input is "no", and the Main.py variant without
the treadmill question always uses `0.84`. -/
theorem C2_running_calories (w d age rhr : ℚ) (hw : 0 < w) (hd : 0 < d)
    (hage : 0 < age) (hrhr : 0 < rhr) :
    calc_running w d age rhr false =
      (0.95 * w + 0.84) * d * car_resp_fitness_factor age rhr ∧
    calc_running w d age rhr true =
      (0.95 * w + 0) * d * car_resp_fitness_factor age rhr ∧
    (∀ rest, get_yes_or_no (some false) ("" :: rest) = some false) ∧
    calc_running_main w d age rhr =
      (0.95 * w + 0.84) * d * car_resp_fitness_factor age rhr := by
  refine ⟨rfl, rfl, ?_, rfl⟩
  intro rest
  simp [get_yes_or_no, pyStrip, pyLower]

/-- Witness for C2 at weight 70 kg, distance 10 km, age 30, resting heart
rate 60. -/
theorem C2_running_calories_witness :
    calc_running 70 10 30 60 false =
      (0.95 * 70 + 0.84) * 10 * car_resp_fitness_factor 30 60 :=
  (C2_running_calories 70 10 30 60 (by norm_num) (by norm_num) (by norm_num)
    (by norm_num)).1

/-- C3: for every weight `> 0` (kg) and duration `> 0` (hr) the swimming
calculator returns `duration * styleMET * weight`, where the style chosen
at index `i` of the 10-element style list maps to the `i`-th MET constant;
entering any of the 10 style names selects its own index, "butterfly"
selects index 4 with MET 13.8, and weight 70 kg for half an hour of
butterfly gives exactly 483. -/
theorem C3_swimming_calories (w t : ℚ) (hw : 0 < w) (ht : 0 < t) :
    (∀ i, i < SWIMMING_STYLE_METS.length →
      calc_swimming_core w t i = t * SWIMMING_STYLE_METS.getD i 0 * w) ∧
    SWIMMING_STYLES.length = 10 ∧
    SWIMMING_STYLE_METS.length = 10 ∧
    (∀ i, i < 10 →
      get_index_of_one_of SWIMMING_STYLES [SWIMMING_STYLES.getD i ""] = some i) ∧
    SWIMMING_STYLE_METS.getD 4 0 = 13.8 ∧
    calc_swimming w t ["butterfly"] = some (t * 13.8 * w) ∧
    calc_swimming 70 (1 / 2) ["butterfly"] = some 483 := by
  refine ⟨fun i _ => rfl, by decide, by decide, ?_, by norm_num [SWIMMING_STYLE_METS], ?_, ?_⟩
  · intro i hi
    interval_cases i <;> decide
  · show Option.map _ (get_index_of_one_of SWIMMING_STYLES ["butterfly"]) = _
    rw [show get_index_of_one_of SWIMMING_STYLES ["butterfly"] = some 4 by decide]
    show some (calc_swimming_core w t 4) = _
    norm_num [calc_swimming_core, SWIMMING_STYLE_METS]
  · show Option.map _ (get_index_of_one_of SWIMMING_STYLES ["butterfly"]) = _
    rw [show get_index_of_one_of SWIMMING_STYLES ["butterfly"] = some 4 by decide]
    show some (calc_swimming_core 70 (1 / 2) 4) = _
    norm_num [calc_swimming_core, SWIMMING_STYLE_METS]

/-- Witness for C3 at weight 70 kg, duration 0.5 hr, style "butterfly". -/
theorem C3_swimming_calories_witness :
    calc_swimming 70 (1 / 2) ["butterfly"] = some 483 :=
  (C3_swimming_calories 70 (1 / 2) (by norm_num) (by norm_num)).2.2.2.2.2.2

/-- C4 counterexample: at age 30 and resting heart rate 60 the raw factor
`1.046575` exceeds 1, yet the fitness factor keeps the value `1.046575`
instead of clamping it to `1.07`, refuting "any value above 1 is clamped
down to 1.07". -/
theorem C4_fitness_counterexample :
    (1 : ℚ) < 1.046575 ∧
    car_resp_fitness_factor 30 60 = 1.046575 ∧
    car_resp_fitness_factor 30 60 ≠ 1.07 := by
  norm_num [car_resp_fitness_factor, constrain]

/-- C4 (amended): for every age `> 0` and resting heart rate `> 0`, the
running fitness factor equals `min (max 1 (1.285 - 0.005 * VO2max)) 1.07`;
any raw value above `1.07` is clamped down to `1.07`, the clamp never
produces values below 1, and the factor always lies in `[1, 1.07]`. -/
theorem C4_fitness_factor (age rhr : ℚ) (hage : 0 < age) (hrhr : 0 < rhr) :
    car_resp_fitness_factor age rhr =
      min (max 1 (1.285 - 0.005 * (15.3 * (208 - 0.7 * age) / rhr))) 1.07 ∧
    (1.07 < 1.285 - 0.005 * (15.3 * (208 - 0.7 * age) / rhr) →
      car_resp_fitness_factor age rhr = 1.07) ∧
    1 ≤ car_resp_fitness_factor age rhr ∧
    car_resp_fitness_factor age rhr ≤ 1.07 := by
  refine ⟨rfl, ?_, car_resp_fitness_factor_range age rhr⟩
  intro h
  show min (max 1 (1.285 - 0.005 * (15.3 * (208 - 0.7 * age) / rhr))) 1.07 = _
  rw [max_eq_right (by linarith), min_eq_right (le_of_lt h)]

/-- Witness for C4 at age 30, resting heart rate 60. -/
theorem C4_fitness_factor_witness :
    1 ≤ car_resp_fitness_factor 30 60 ∧ car_resp_fitness_factor 30 60 ≤ 1.07 :=
  (C4_fitness_factor 30 60 (by norm_num) (by norm_num)).2.2

/-- The two rejection diagnostics printed by `get_positive_number`
(Final.py lines 80-88, Main.py lines 50-52). -/
inductive NumDiag where
  | notANumber
  | notGreaterThanZero
  deriving DecidableEq

/-- `get_positive_number(prompt)` (Final.py lines 61-90, Main.py lines
40-54).  Python's `float(...)` parser is the parameter `parse`; on a
finite stream of input lines the loop returns the first accepted value,
paired with one diagnostic per rejected attempt (first component `none`
when every line is rejected and the loop keeps re-prompting). -/
def get_positive_number (parse : String → Option ℚ) :
    List String → Option ℚ × List NumDiag
  | [] => (none, [])
  | input :: rest =>
    let u := pyLower (pyStrip input)
    match parse u with
    | some number =>
      if number > 0 then (some number, [])
      else
        ((get_positive_number parse rest).1,
          NumDiag.notGreaterThanZero :: (get_positive_number parse rest).2)
    | none =>
      ((get_positive_number parse rest).1,
        NumDiag.notANumber :: (get_positive_number parse rest).2)

/-- A tiny concrete instance of the `float` parser, used to instantiate the
reader at concrete inputs. -/
def parseDigits5 (s : String) : Option ℚ :=
  if s = "5" then some 5 else if s = "-1" then some (-1) else none

/-- C5: the positive-number reader accepts and returns the parsed value
exactly when the trimmed input parses and is `> 0`; an unparsable line is
rejected with the "not a number" diagnostic and a non-positive parse with
the "not greater than zero" diagnostic, each rejection re-prompting on the
rest of the stream (so a stream of rejections yields no value and one
diagnostic per attempt — the loop never terminates on rejection). -/
theorem C5_get_positive_number (parse : String → Option ℚ) (s : String)
    (rest : List String) :
    (∀ n, parse (pyLower (pyStrip s)) = some n → 0 < n →
      get_positive_number parse (s :: rest) = (some n, [])) ∧
    (parse (pyLower (pyStrip s)) = none →
      get_positive_number parse (s :: rest) =
        ((get_positive_number parse rest).1,
          NumDiag.notANumber :: (get_positive_number parse rest).2)) ∧
    (∀ n, parse (pyLower (pyStrip s)) = some n → n ≤ 0 →
      get_positive_number parse (s :: rest) =
        ((get_positive_number parse rest).1,
          NumDiag.notGreaterThanZero :: (get_positive_number parse rest).2)) ∧
    (∀ inputs : List String,
      (∀ t ∈ inputs, ∀ n, parse (pyLower (pyStrip t)) = some n → n ≤ 0) →
      (get_positive_number parse inputs).1 = none ∧
      (get_positive_number parse inputs).2.length = inputs.length) := by
  refine ⟨?_, ?_, ?_, ?_⟩
  · intro n hn hpos
    simp [get_positive_number, hn, hpos]
  · intro hn
    simp [get_positive_number, hn]
  · intro n hn hle
    simp [get_positive_number, hn, not_lt.mpr hle]
  · intro inputs h
    induction inputs with
    | nil => simp [get_positive_number]
    | cons a as ih =>
      have hrest : ∀ t ∈ as, ∀ n, parse (pyLower (pyStrip t)) = some n → n ≤ 0 :=
        fun t ht => h t (List.mem_cons_of_mem a ht)
      obtain ⟨ih1, ih2⟩ := ih hrest
      cases hp : parse (pyLower (pyStrip a)) with
      | none => simp [get_positive_number, hp, ih1, ih2]
      | some n =>
        have hnp : ¬n > 0 := not_lt.mpr (h a (List.mem_cons_self a as) n hp)
        simp [get_positive_number, hp, hnp, ih1, ih2]

/-- Witness for C5: with a concrete parser, the stream `"x", "-1", "5"` is
rejected twice with the matching diagnostics before `5` is accepted. -/
theorem C5_get_positive_number_witness :
    get_positive_number parseDigits5 ["x", "-1", "5"] =
      (some 5, [NumDiag.notANumber, NumDiag.notGreaterThanZero]) := by
  have h5 : get_positive_number parseDigits5 ["5"] = (some 5, []) :=
    (C5_get_positive_number parseDigits5 "5" []).1 5 (by decide) (by norm_num)
  have h1 : get_positive_number parseDigits5 ["-1", "5"] =
      ((get_positive_number parseDigits5 ["5"]).1,
        NumDiag.notGreaterThanZero :: (get_positive_number parseDigits5 ["5"]).2) :=
    (C5_get_positive_number parseDigits5 "-1" ["5"]).2.2.1 (-1) (by decide)
      (by norm_num)
  have hx : get_positive_number parseDigits5 ["x", "-1", "5"] =
      ((get_positive_number parseDigits5 ["-1", "5"]).1,
        NumDiag.notANumber :: (get_positive_number parseDigits5 ["-1", "5"]).2) :=
    (C5_get_positive_number parseDigits5 "x" ["-1", "5"]).2.1 (by decide)
  rw [hx, h1, h5]

theorem pymod_nonneg (x y : ℚ) (hy : 0 < y) : 0 ≤ pymod x y := by
  unfold pymod
  rw [ratFloor_eq_floor]
  have h := Int.floor_le (x / y)
  have : y * (⌊x / y⌋ : ℚ) ≤ y * (x / y) := by
    exact mul_le_mul_of_nonneg_left h (le_of_lt hy)
  rw [mul_div_cancel₀ x (ne_of_gt hy)] at this
  linarith

theorem pymod_lt (x y : ℚ) (hy : 0 < y) : pymod x y < y := by
  unfold pymod
  rw [ratFloor_eq_floor]
  have h := Int.lt_floor_add_one (x / y)
  have : y * (x / y) < y * ((⌊x / y⌋ : ℚ) + 1) := by
    exact mul_lt_mul_of_pos_left h hy
  rw [mul_div_cancel₀ x (ne_of_gt hy)] at this
  nlinarith

theorem pyRound_le_of_lt (q : ℚ) (n : ℤ) (h : q < n) : pyRound q ≤ n := by
  have hfl : ⌊q⌋ < n := Int.floor_lt.mpr (by exact_mod_cast h)
  rcases pyRound_cases q with h1 | h1 <;> rw [h1] <;> omega

/-- Output of `print_calories_bar` (Final.py lines 218-235, Main.py lines
116-127): the string of full squares, the chosen index into the
remainder-glyph string, the remainder character itself and the printed
rounded calorie count.  The label is printed unchanged and not modelled. -/
structure BarOutput where
  squares : String
  remainder_index : ℕ
  remainder_char : Char
  printed_calories : ℤ

/-- The three remainder glyphs `"░▌█"` of `print_calories_bar`. -/
def REMAINDER_GLYPHS : String := "░▌█"

/-- `print_calories_bar(label, calories)` from the source: `int(c // 100)`
full squares, the remainder glyph picked by `round(remainder / 50)`, and
the rounded calorie count. -/
def print_calories_bar (calories : ℚ) : BarOutput :=
  let number_of_squares := (Rat.floor (calories / CALORIES_PER_SQUARE)).toNat
  let remainder := pymod calories CALORIES_PER_SQUARE
  let remainder_index := (pyRound (remainder / (CALORIES_PER_SQUARE / 2))).toNat
  { squares := ⟨List.replicate number_of_squares '█'⟩
    remainder_index := remainder_index
    remainder_char := REMAINDER_GLYPHS.data.getD remainder_index '?'
    printed_calories := pyRound calories }

/-- Unfolding of the bar renderer with the constant `100` and the glyph
spacing `100 / 2 = 50` evaluated. -/
theorem print_calories_bar_def (c : ℚ) :
    print_calories_bar c =
      { squares := ⟨List.replicate (Rat.floor (c / 100)).toNat '█'⟩
        remainder_index := (pyRound (pymod c 100 / 50)).toNat
        remainder_char :=
          REMAINDER_GLYPHS.data.getD (pyRound (pymod c 100 / 50)).toNat '?'
        printed_calories := pyRound c } := by
  unfold print_calories_bar
  norm_num [CALORIES_PER_SQUARE]

theorem pymod_250_100 : pymod (250 : ℚ) 100 = 50 := by
  unfold pymod
  rw [ratFloor_eq_floor]
  norm_num

theorem pyRound_one : pyRound ((50 : ℚ) / 50) = 1 := by
  unfold pyRound
  rw [ratFloor_eq_floor]
  norm_num

theorem pyRound_250 : pyRound (250 : ℚ) = 250 := by
  unfold pyRound
  rw [ratFloor_eq_floor]
  norm_num

/-- C6: for every recorded calorie value `c > 0` the bar holds
`⌊c / 100⌋` full-block characters, one remainder glyph out of `"░▌█"`
whose index (in half-square units) is nearest to the remainder
`c mod 100` as a proportion of 100, and the rounded value of `c`; at
`c = 250` this is two full blocks, the half-fill glyph `'▌'` and the
printed value 250. -/
theorem C6_calories_bar (c : ℚ) (hc : 0 < c) :
    (print_calories_bar c).squares.data =
      List.replicate (⌊c / 100⌋).toNat '█' ∧
    (print_calories_bar c).remainder_char =
      REMAINDER_GLYPHS.data.getD (print_calories_bar c).remainder_index '?' ∧
    (∀ j : ℕ, j ≤ 2 →
      |pymod c 100 / 100 - ((print_calories_bar c).remainder_index : ℚ) / 2| ≤
        |pymod c 100 / 100 - (j : ℚ) / 2|) ∧
    (print_calories_bar c).printed_calories = pyRound c ∧
    (print_calories_bar 250).squares.data = List.replicate 2 '█' ∧
    (print_calories_bar 250).remainder_char = '▌' ∧
    (print_calories_bar 250).printed_calories = 250 := by
  have hr0 : 0 ≤ pymod c 100 := pymod_nonneg c 100 (by norm_num)
  refine ⟨?_, ?_, ?_, ?_, ?_, ?_, ?_⟩
  · rw [print_calories_bar_def, ratFloor_eq_floor]
  · rw [print_calories_bar_def]
  · intro j hj
    rw [print_calories_bar_def]
    have hround : 0 ≤ pyRound (pymod c 100 / 50) :=
      pyRound_nonneg _ (by positivity)
    have hcast : (((pyRound (pymod c 100 / 50)).toNat : ℚ)) =
        ((pyRound (pymod c 100 / 50) : ℤ) : ℚ) := by
      exact_mod_cast congrArg Int.cast (Int.toNat_of_nonneg hround)
    show |pymod c 100 / 100 - ((pyRound (pymod c 100 / 50)).toNat : ℚ) / 2| ≤ _
    rw [hcast]
    have expand : ∀ z : ℚ, |pymod c 100 / 100 - z / 2| = |pymod c 100 / 50 - z| / 2 := by
      intro z
      rw [show pymod c 100 / 100 - z / 2 = (pymod c 100 / 50 - z) / 2 by ring,
        abs_div]
      norm_num
    rw [expand, expand]
    have hnear := pyRound_nearest (pymod c 100 / 50) (j : ℤ)
    push_cast at hnear ⊢
    linarith
  · rw [print_calories_bar_def]
  · rw [print_calories_bar_def, ratFloor_eq_floor]
    norm_num
    rfl
  · rw [print_calories_bar_def, pymod_250_100, pyRound_one]
    rfl
  · rw [print_calories_bar_def, pyRound_250]

/-- Witness for C6 at the recorded value 250. -/
theorem C6_calories_bar_witness :
    (print_calories_bar 250).squares.data = List.replicate 2 '█' ∧
    (print_calories_bar 250).remainder_char = '▌' ∧
    (print_calories_bar 250).printed_calories = 250 :=
  ⟨(C6_calories_bar 250 (by norm_num)).2.2.2.2.1,
   (C6_calories_bar 250 (by norm_num)).2.2.2.2.2.1,
   (C6_calories_bar 250 (by norm_num)).2.2.2.2.2.2⟩

/-- C10: for every calorie value `c ≥ 0` the remainder `c mod 100` lies in
`[0, 100)`, the glyph index `round(remainder / 50)` is one of 0, 1, 2, and
the index into the three-character glyph string `"░▌█"` is in bounds. -/
theorem C10_remainder_in_bounds (c : ℚ) (hc : 0 ≤ c) :
    0 ≤ pymod c 100 ∧ pymod c 100 < 100 ∧
    ((print_calories_bar c).remainder_index : ℤ) = pyRound (pymod c 100 / 50) ∧
    0 ≤ pyRound (pymod c 100 / 50) ∧ pyRound (pymod c 100 / 50) ≤ 2 ∧
    (print_calories_bar c).remainder_index < REMAINDER_GLYPHS.data.length := by
  have hr0 : 0 ≤ pymod c 100 := pymod_nonneg c 100 (by norm_num)
  have hrlt : pymod c 100 < 100 := pymod_lt c 100 (by norm_num)
  have hround : 0 ≤ pyRound (pymod c 100 / 50) := pyRound_nonneg _ (by positivity)
  have hle2 : pyRound (pymod c 100 / 50) ≤ 2 := by
    apply pyRound_le_of_lt
    push_cast
    linarith
  have hidx : ((print_calories_bar c).remainder_index : ℤ) =
      pyRound (pymod c 100 / 50) := by
    rw [print_calories_bar_def]
    exact Int.toNat_of_nonneg hround
  refine ⟨hr0, hrlt, hidx, hround, hle2, ?_⟩
  rw [print_calories_bar_def]
  show (pyRound (pymod c 100 / 50)).toNat < REMAINDER_GLYPHS.data.length
  have hlen : REMAINDER_GLYPHS.data.length = 3 := rfl
  rw [hlen]
  omega

/-- Witness for C10 at the calorie value 250. -/
theorem C10_remainder_in_bounds_witness :
    0 ≤ pymod (250 : ℚ) 100 ∧ pymod (250 : ℚ) 100 < 100 ∧
    ((print_calories_bar 250).remainder_index : ℤ) =
      pyRound (pymod (250 : ℚ) 100 / 50) ∧
    0 ≤ pyRound (pymod (250 : ℚ) 100 / 50) ∧
    pyRound (pymod (250 : ℚ) 100 / 50) ≤ 2 ∧
    (print_calories_bar 250).remainder_index < REMAINDER_GLYPHS.data.length :=
  C10_remainder_in_bounds 250 (by norm_num)

/-- One element of the `exercises` list of `main`: the nested list
`[command, calories_burned]` appended after a completed calculation
(Final.py line 295, Main.py line 176). -/
structure ExerciseRecord where
  command : String
  calories_burned : ℚ

/-- The summary printed after the session loop of `main` (Final.py lines
297-308, Main.py lines 178-188): the labelled per-exercise bars, the
rounded total line, and whether the "No exercises recorded." notice is
printed. -/
structure SummaryOutput where
  bars : List (String × BarOutput)
  total : Option ℤ
  no_exercises_notice : Bool

/-- End-of-session summary of `main`: with at least one record, one
labelled bar per record plus the total accumulated from the unrounded
per-exercise values and rounded at display time; with zero records only
the notice. -/
def summarize (exercises : List ExerciseRecord) : SummaryOutput :=
  if exercises.length > 0 then
    { bars := (List.range exercises.length).map (fun index =>
        (toString (index + 1) ++ ". " ++ (exercises.getD index ⟨"", 0⟩).command,
          print_calories_bar (exercises.getD index ⟨"", 0⟩).calories_burned))
      total := some (pyRound
        (exercises.foldl (fun acc e => acc + e.calories_burned) 0))
      no_exercises_notice := false }
  else { bars := [], total := none, no_exercises_notice := true }

/-- C7: for every non-empty list of records the printed total is the exact
sum of the unrounded per-exercise values, rounded once at display time;
rounding per exercise first would differ, as two records of 0.6 calories
show (total prints 1, the per-exercise rounded values sum to 2). -/
theorem C7_total_rounded_once (records : List ExerciseRecord)
    (h : records ≠ []) :
    (summarize records).total =
      some (pyRound (records.foldl (fun acc e => acc + e.calories_burned) 0)) ∧
    (summarize [⟨"biking", 3 / 5⟩, ⟨"running", 3 / 5⟩]).total = some 1 ∧
    pyRound (3 / 5 : ℚ) + pyRound (3 / 5 : ℚ) = 2 := by
  have hround : pyRound (3 / 5 : ℚ) = 1 := by
    unfold pyRound
    rw [ratFloor_eq_floor]
    norm_num
  refine ⟨?_, ?_, ?_⟩
  · unfold summarize
    rw [if_pos (by simpa using List.length_pos.mpr h)]
  · unfold summarize
    rw [if_pos (by norm_num)]
    have hsum : ([⟨"biking", 3 / 5⟩, ⟨"running", 3 / 5⟩] :
        List ExerciseRecord).foldl (fun acc e => acc + e.calories_burned) 0 =
        6 / 5 := by
      show (0 : ℚ) + 3 / 5 + 3 / 5 = 6 / 5
      norm_num
    simp only [hsum]
    have : pyRound (6 / 5 : ℚ) = 1 := by
      unfold pyRound
      rw [ratFloor_eq_floor]
      norm_num
    rw [this]
  · rw [hround]
    norm_num

/-- Witness for C7 on a concrete two-record session. -/
theorem C7_total_rounded_once_witness :
    (summarize [⟨"biking", 3 / 5⟩, ⟨"running", 3 / 5⟩]).total = some 1 ∧
    pyRound (3 / 5 : ℚ) + pyRound (3 / 5 : ℚ) = 2 :=
  ⟨(C7_total_rounded_once [⟨"biking", 3 / 5⟩] (by simp)).2.1,
   (C7_total_rounded_once [⟨"biking", 3 / 5⟩] (by simp)).2.2⟩

/-- C8: a session that ends with zero recorded exercises prints the
"no exercises" notice and produces neither per-exercise bars nor a total
line. -/
theorem C8_no_exercises :
    summarize [] = { bars := [], total := none, no_exercises_notice := true } :=
  rfl

/-- The validated inputs of one exercise dispatched by `run_command`
(Final.py lines 238-269): weight in pounds always; distance in miles for
biking and running; duration in minutes for biking and swimming; running
additionally sub-prompts age, resting heart rate and the treadmill answer,
swimming a style index. -/
inductive ExerciseInput where
  | biking (weight_pounds distance_mi duration_minutes : ℚ)
  | running (weight_pounds distance_mi age_years resting_heart_bpm : ℚ)
      (on_a_treadmill : Bool)
  | swimming (weight_pounds duration_minutes : ℚ) (style_index : ℕ)

/-- The command string the record stores for an exercise. -/
def ExerciseInput.command : ExerciseInput → String
  | .biking _ _ _ => "biking"
  | .running _ _ _ _ _ => "running"
  | .swimming _ _ _ => "swimming"

/-- `run_command(command)` (Final.py lines 238-269): unit conversions
(pounds to kilograms, miles to kilometers, minutes to hours) and dispatch
to the calculator matching the command. -/
def run_command : ExerciseInput → ℚ
  | .biking weight_pounds distance_mi duration_minutes =>
    (calc_biking (weight_pounds * KILOGRAMS_PER_POUND) distance_mi
      (duration_minutes / MINUTES_PER_HOUR)).calories
  | .running weight_pounds distance_mi age_years resting_heart_bpm on_a_treadmill =>
    calc_running (weight_pounds * KILOGRAMS_PER_POUND)
      (distance_mi * KILOMETERS_PER_MILE) age_years resting_heart_bpm on_a_treadmill
  | .swimming weight_pounds duration_minutes style_index =>
    calc_swimming_core (weight_pounds * KILOGRAMS_PER_POUND)
      (duration_minutes / MINUTES_PER_HOUR) style_index

/-- The guarantees of the validated input readers: every number read by
`get_positive_number` is positive and the style index returned by
`get_index_of_one_of` indexes the style list. -/
def ExerciseInput.valid : ExerciseInput → Prop
  | .biking w d t => 0 < w ∧ 0 < d ∧ 0 < t
  | .running w d a r _ => 0 < w ∧ 0 < d ∧ 0 < a ∧ 0 < r
  | .swimming w t i => 0 < w ∧ 0 < t ∧ i < SWIMMING_STYLES.length

/-- The session loop of `main` (Final.py lines 283-295): one record is
appended per completed calculation (`exercises.append([command, calories_burned])`). -/
def mainLoop (session : List ExerciseInput) : List ExerciseRecord :=
  session.foldl (fun exercises e =>
    exercises ++ [⟨e.command, run_command e⟩]) []

theorem swimming_met_pos (i : ℕ) (hi : i < SWIMMING_STYLES.length) :
    0 < SWIMMING_STYLE_METS.getD i 0 := by
  have h10 : SWIMMING_STYLES.length = 10 := rfl
  rw [h10] at hi
  interval_cases i <;> norm_num [SWIMMING_STYLE_METS]

theorem run_command_pos (e : ExerciseInput) (he : e.valid) : 0 < run_command e := by
  have hkg : (0 : ℚ) < KILOGRAMS_PER_POUND := by norm_num [KILOGRAMS_PER_POUND]
  have hkm : (0 : ℚ) < KILOMETERS_PER_MILE := by norm_num [KILOMETERS_PER_MILE]
  have hmin : (0 : ℚ) < MINUTES_PER_HOUR := by norm_num [MINUTES_PER_HOUR]
  cases e with
  | biking w d t =>
    obtain ⟨hw, hd, ht⟩ := he
    show 0 < (t / MINUTES_PER_HOUR) *
      constrain 4 (d / (t / MINUTES_PER_HOUR) - 5) 16 * (w * KILOGRAMS_PER_POUND)
    have hmet : (4 : ℚ) ≤ constrain 4 (d / (t / MINUTES_PER_HOUR) - 5) 16 :=
      le_min (le_max_left _ _) (by norm_num)
    have := div_pos ht hmin
    positivity
  | running w d a r tm =>
    obtain ⟨hw, hd, ha, hr⟩ := he
    show 0 < (0.95 * (w * KILOGRAMS_PER_POUND) +
        (if ¬tm then (0.84 : ℚ) else 0)) * (d * KILOMETERS_PER_MILE) *
        car_resp_fitness_factor a r
    have hair : (0 : ℚ) ≤ if ¬tm then (0.84 : ℚ) else 0 := by
      split <;> norm_num
    have hfit : (0 : ℚ) < car_resp_fitness_factor a r :=
      lt_of_lt_of_le one_pos (car_resp_fitness_factor_range a r).1
    have hbase : (0 : ℚ) < 0.95 * (w * KILOGRAMS_PER_POUND) := by positivity
    have := mul_pos hw hkg
    nlinarith [mul_pos (mul_pos hd hkm) hfit]
  | swimming w t i =>
    obtain ⟨hw, ht, hi⟩ := he
    show 0 < (t / MINUTES_PER_HOUR) * SWIMMING_STYLE_METS.getD i 0 *
      (w * KILOGRAMS_PER_POUND)
    have hmet := swimming_met_pos i hi
    have := div_pos ht hmin
    positivity

theorem mainLoop_eq_map (session : List ExerciseInput) :
    mainLoop session =
      session.map (fun e => ⟨e.command, run_command e⟩) := by
  have key : ∀ (s : List ExerciseInput) (acc : List ExerciseRecord),
      s.foldl (fun exercises e => exercises ++ [⟨e.command, run_command e⟩]) acc =
        acc ++ s.map (fun e => ⟨e.command, run_command e⟩) := by
    intro s
    induction s with
    | nil => intro acc; simp
    | cons a as ih =>
      intro acc
      simp only [List.foldl_cons, List.map_cons, ih]
      simp
  simpa using key session []

/-- C9: every record the session loop appends has command name "biking",
"running" or "swimming" and, for validated positive inputs, a positive
calorie value; the list grows append-only (running one more exercise only
appends one record, leaving the earlier records untouched). -/
theorem C9_session_records (session : List ExerciseInput) (e : ExerciseInput)
    (hv : ∀ x ∈ session, x.valid) (he : e.valid) :
    mainLoop (session ++ [e]) =
      mainLoop session ++ [⟨e.command, run_command e⟩] ∧
    (∀ r ∈ mainLoop session,
      r.command ∈ ["biking", "running", "swimming"] ∧ 0 < r.calories_burned) := by
  constructor
  · rw [mainLoop_eq_map, mainLoop_eq_map, List.map_append]
    rfl
  · intro r hr
    rw [mainLoop_eq_map] at hr
    obtain ⟨x, hx, rfl⟩ := List.mem_map.mp hr
    refine ⟨?_, run_command_pos x (hv x hx)⟩
    cases x <;> simp [ExerciseInput.command]

/-- Witness for C9: a one-exercise session extended by a swimming
exercise. -/
theorem C9_session_records_witness :
    mainLoop [ExerciseInput.biking 154 20 60, ExerciseInput.swimming 154 30 4] =
      mainLoop [ExerciseInput.biking 154 20 60] ++
        [⟨ExerciseInput.command (ExerciseInput.swimming 154 30 4),
          run_command (ExerciseInput.swimming 154 30 4)⟩] :=
  (C9_session_records [ExerciseInput.biking 154 20 60]
    (ExerciseInput.swimming 154 30 4)
    (by
      intro x hx
      simp only [List.mem_singleton] at hx
      subst hx
      exact ⟨by norm_num, by norm_num, by norm_num⟩)
    ⟨by norm_num, by norm_num, by norm_num [SWIMMING_STYLES]⟩).1

end ExerciseCalc
